import Mathlib

/-!
Shallow embedding of the `apppdf` service workers (src/sw.js holding the
v8.0.0 and v9.0.0 variants, src/unnamed/part_000 the v6.0 variant,
src/unnamed/part_001 the v7.0.1 variant) and proofs about the claims on
the cache-strategy router.

The Cache Storage API is modelled as an association list from store name
to store, each store an association list from a request URL key to a
stored response.  `fetch` is modelled as an oracle `Net` from URL key to
`Option Response`: `none` is a rejected fetch (network failure); an HTTP
error still resolves with `Response.ok = false`, as in the browser.
A fetch handler's value is `Option Response`: `none` models the promise
passed to `event.respondWith` resolving to `undefined`.
-/

set_option autoImplicit false

namespace AppPdf

/-! ## String helpers mirroring the JS string methods used by the code -/

/-- Char-list version of JS `String.prototype.startsWith`. -/
def hasPrefixCh : List Char → List Char → Bool
  | [], _ => true
  | _ :: _, [] => false
  | a :: as, b :: bs => a == b && hasPrefixCh as bs

/-- Char-list substring containment. -/
def hasSubstrCh (sub : List Char) : List Char → Bool
  | [] => hasPrefixCh sub []
  | c :: cs => hasPrefixCh sub (c :: cs) || hasSubstrCh sub cs

/-- JS `s.startsWith(p)`. -/
def strStartsWith (s p : String) : Bool := hasPrefixCh p.toList s.toList

/-- JS `s.includes(sub)`. -/
def strIncludes (s sub : String) : Bool := hasSubstrCh sub.toList s.toList

/-- JS `s.endsWith(suf)`. -/
def strEndsWith (s suf : String) : Bool :=
  hasPrefixCh suf.toList.reverse s.toList.reverse

/-! ## Requests, responses, cache state, network -/

/-- The parts of a parsed `URL` object the workers read. -/
structure Url where
  protocol : String
  hostname : String
  pathname : String
  deriving DecidableEq

/-- `url.origin`: scheme plus host (ports are not modelled). -/
def Url.origin (u : Url) : String := u.protocol ++ "//" ++ u.hostname

/-- The full URL string, used as the cache key of a request. -/
def Url.href (u : Url) : String := u.origin ++ u.pathname

/-- `request.destination` values the workers test. -/
inductive Dest where
  | document
  | image
  | script
  | style
  | other
  deriving DecidableEq

/-- The parts of a `Request` the workers read. -/
structure Request where
  url : Url
  destination : Dest
  method : String
  deriving DecidableEq

/-- The URL key under which a request is cached and fetched. -/
def Request.key (r : Request) : String := r.url.href

/-- A stored/returned response snapshot. -/
structure Response where
  status : Nat
  statusText : String
  headers : List (String × String)
  body : String
  deriving DecidableEq

/-- JS `response.ok`: status in the 2xx range. -/
def Response.ok (r : Response) : Bool := 200 ≤ r.status && r.status < 300

/-- Header lookup (exact-name match). -/
def getHeader (r : Response) (name : String) : Option String :=
  match r.headers.find? (fun p => p.1 == name) with
  | some p => some p.2
  | none => none

/-- One named cache: URL key to stored response. -/
abbrev Store := List (String × Response)

/-- The whole Cache Storage: store name to store, in creation order. -/
abbrev CacheState := List (String × Store)

/-- The network oracle: `none` models a rejected `fetch`. -/
abbrev Net := String → Option Response

/-- First stored response for a key inside one store. -/
def storeLookup (store : Store) (key : String) : Option Response :=
  match store with
  | [] => none
  | (k, r) :: rest => if k == key then some r else storeLookup rest key

/-- `caches.match(request)`: search every store in order. -/
def cachesMatch (st : CacheState) (key : String) : Option Response :=
  match st with
  | [] => none
  | (_, store) :: rest =>
    match storeLookup store key with
    | some r => some r
    | none => cachesMatch rest key

/-- `cache.put` inside one store: replace the entry for the key or append. -/
def storePut (store : Store) (key : String) (r : Response) : Store :=
  match store with
  | [] => [(key, r)]
  | (k, v) :: rest =>
    if k == key then (k, r) :: rest else (k, v) :: storePut rest key r

/-- `caches.open(name)` followed by `cache.put(key, r)`; a missing store
is created at the end, matching cache creation order. -/
def cachePut (st : CacheState) (name key : String) (r : Response) : CacheState :=
  match st with
  | [] => [(name, [(key, r)])]
  | (n, s) :: rest =>
    if n == name then (n, storePut s key r) :: rest
    else (n, s) :: cachePut rest name key r

/-- `caches.keys()`. -/
def storeNames (st : CacheState) : List String := st.map (fun p => p.1)

/-- Contents of the named store (`[]` when the store does not exist). -/
def storeContents (st : CacheState) (name : String) : Store :=
  match st with
  | [] => []
  | (n, s) :: rest => if n == name then s else storeContents rest name

/-- `caches.delete(name)`. -/
def cachesDelete (st : CacheState) (name : String) : CacheState :=
  st.filter (fun p => !(p.1 == name))

/-- Delete a list of store names in order. -/
def deleteCachesList (names : List String) (st : CacheState) : CacheState :=
  names.foldl cachesDelete st

/-! ## Constants of the variants (src/sw.js, src/unnamed/part_001) -/

def CACHE_NAME_V8 : String := "pdf-maker-v8.0.0"
def RUNTIME_CACHE_V8 : String := "pdf-maker-runtime-v8"
def CACHE_NAME_V9 : String := "pdf-maker-pro-v9.0.0"
def RUNTIME_CACHE_V9 : String := "pdf-maker-runtime-v9"
def CACHE_NAME_V7 : String := "pdf-maker-v7.0.1"
def RUNTIME_CACHE_V7 : String := "pdf-maker-runtime-v7.0.1"
def CACHE_NAME_V6 : String := "lesson-converter-v6.0"

def PRECACHE_ASSETS_V8 : List String :=
  ["/", "/index.html", "/manifest.json", "/icons/icon-72.png",
   "/icons/icon-96.png", "/icons/icon-128.png", "/icons/icon-144.png",
   "/icons/icon-152.png", "/icons/icon-192.png", "/icons/icon-384.png",
   "/icons/icon-512.png", "/icons/maskable-512.png"]

def CDN_ASSETS_V8 : List String :=
  ["https://cdnjs.cloudflare.com/ajax/libs/pdf.js/3.11.174/pdf.min.js",
   "https://cdnjs.cloudflare.com/ajax/libs/pdf.js/3.11.174/pdf.worker.min.js",
   "https://cdnjs.cloudflare.com/ajax/libs/jspdf/2.5.1/jspdf.umd.min.js",
   "https://fonts.googleapis.com/css2?family=Tajawal:wght@400;500;700;800;900&display=swap",
   "https://fonts.googleapis.com/icon?family=Material+Icons+Round"]

def PRECACHE_FILES_V9 : List String := ["/", "/index.html", "/manifest.json"]

def CDN_RESOURCES_V9 : List String :=
  ["https://cdnjs.cloudflare.com/ajax/libs/pdf.js/3.11.174/pdf.min.js",
   "https://cdnjs.cloudflare.com/ajax/libs/pdf.js/3.11.174/pdf.worker.min.js",
   "https://cdnjs.cloudflare.com/ajax/libs/jspdf/2.5.1/jspdf.umd.min.js",
   "https://fonts.googleapis.com/css2?family=Tajawal:wght@300;400;500;700;800;900&family=Outfit:wght@300;400;500;600;700;800;900&display=swap",
   "https://fonts.googleapis.com/icon?family=Material+Icons+Round"]

def PRECACHE_ASSETS_V7 : List String :=
  ["/", "/index.html", "/manifest.json", "/icons/icon-72.png",
   "/icons/icon-96.png", "/icons/icon-128.png", "/icons/icon-144.png",
   "/icons/icon-152.png", "/icons/icon-192.png", "/icons/icon-384.png",
   "/icons/icon-512.png", "/icons/maskable-512.png",
   "/screenshots/screenshot1.png", "/screenshots/screenshot2.png"]

def CDN_ASSETS_V7 : List String :=
  ["https://cdnjs.cloudflare.com/ajax/libs/pdf.js/3.11.174/pdf.min.js",
   "https://cdnjs.cloudflare.com/ajax/libs/pdf.js/3.11.174/pdf.worker.min.js",
   "https://cdnjs.cloudflare.com/ajax/libs/jspdf/2.5.1/jspdf.umd.min.js"]

/-! ## Routing strategies -/

/-- The four outcomes of classifying an intercepted request. -/
inductive Strategy where
  | passThrough
  | cacheFirst
  | staleWhileRevalidate
  | networkFirst
  deriving DecidableEq

/-- The key `caches.match('/index.html')` resolves to: the path is
resolved against the worker's own origin `origin0`. -/
def indexKey (origin0 : String) : String := origin0 ++ "/index.html"

/-! ## v8.0.0 variant (first part of src/sw.js) -/

/-- sw.js line 115: `url.hostname.includes('cdnjs') || url.hostname.includes('fonts')`. -/
def isCdnHostV8 (host : String) : Bool :=
  strIncludes host "cdnjs" || strIncludes host "fonts"

/-- sw.js lines 97-112, the same-origin Cache-First branch of v8
`handleFetch`: return the cached entry if present; else fetch, store a
2xx response under `CACHE_NAME`, and return it; on a rejected fetch
return `caches.match('/index.html')` (which may resolve to `undefined`,
modelled `none`). -/
def cacheFirstV8 (origin0 : String) (req : Request) (st : CacheState) (net : Net) :
    Option Response × CacheState :=
  match cachesMatch st req.key with
  | some cached => (some cached, st)
  | none =>
    match net req.key with
    | some resp =>
      (some resp, if resp.ok then cachePut st CACHE_NAME_V8 req.key resp else st)
    | none => (cachesMatch st (indexKey origin0), st)

/-- sw.js lines 114-130, the Stale-While-Revalidate branch of v8
`handleFetch`.  The network fetch runs regardless: a 2xx response is
stored under `CACHE_NAME` as a side effect.  The returned value is the
cached entry when present (`cached || fetchPromise`); otherwise the
fetch result; a rejected fetch falls back to `cached`
(`.catch(() => cached)`), which is `undefined`/`none` on a cache miss. -/
def swrV8 (req : Request) (st : CacheState) (net : Net) :
    Option Response × CacheState :=
  match cachesMatch st req.key, net req.key with
  | some cached, some resp =>
    (some cached, if resp.ok then cachePut st CACHE_NAME_V8 req.key resp else st)
  | some cached, none => (some cached, st)
  | none, some resp =>
    (some resp, if resp.ok then cachePut st CACHE_NAME_V8 req.key resp else st)
  | none, none => (none, st)

/-- sw.js lines 132-137, the Network-First branch of v8 `handleFetch`.
On a rejected fetch the code runs
`return caches.match(request) || new Response('Offline', { status: 503 })`:
`caches.match` returns a promise object, which is truthy, so the `||`
yields that promise unchanged and the 503 literal is unreachable; the
awaited value is the match result, possibly `undefined`/`none`. -/
def networkFirstV8 (req : Request) (st : CacheState) (net : Net) :
    Option Response × CacheState :=
  match net req.key with
  | some resp => (some resp, st)
  | none => (cachesMatch st req.key, st)

/-- sw.js lines 96-138: v8 `handleFetch`. -/
def handleFetchV8 (origin0 : String) (req : Request) (st : CacheState) (net : Net) :
    Option Response × CacheState :=
  if req.url.origin == origin0 then cacheFirstV8 origin0 req st net
  else if isCdnHostV8 req.url.hostname then swrV8 req st net
  else networkFirstV8 req st net

/-- sw.js lines 87-94: the v8 fetch listener.  `none` models not calling
`event.respondWith` (pass through to default network handling). -/
def fetchListenerV8 (origin0 : String) (req : Request) (st : CacheState) (net : Net) :
    Option (Option Response × CacheState) :=
  if !(strStartsWith req.url.protocol "http") then none
  else some (handleFetchV8 origin0 req st net)

/-! ## v9.0.0 variant (second part of src/sw.js) -/

/-- sw.js lines 283-285: hostname contains `cdnjs`, `fonts.googleapis`
or `fonts.gstatic`. -/
def isCdnHostV9 (host : String) : Bool :=
  strIncludes host "cdnjs" || strIncludes host "fonts.googleapis" ||
    strIncludes host "fonts.gstatic"

/-- sw.js lines 314-324: `fetchAndCache` — background refresh; a 2xx
fetch result is stored under `CACHE_NAME`, failures are swallowed. -/
def fetchAndCacheV9 (req : Request) (st : CacheState) (net : Net) : CacheState :=
  match net req.key with
  | some resp => if resp.ok then cachePut st CACHE_NAME_V9 req.key resp else st
  | none => st

/-- The SVG offline placeholder body of v9 (sw.js lines 337-340, a
template literal with its literal newlines and indentation). -/
def svgBodyV9 : String :=
  "<svg xmlns=\"http://www.w3.org/2000/svg\" width=\"100\" height=\"100\" viewBox=\"0 0 100 100\">\n                <rect fill=\"#1a1a2e\" width=\"100\" height=\"100\"/>\n                <text fill=\"#667eea\" x=\"50\" y=\"55\" text-anchor=\"middle\" font-size=\"12\">Offline</text>\n            </svg>"

/-- The v9 image placeholder response (`new Response` defaults: status
200, empty status text). -/
def svgResponseV9 : Response :=
  ⟨200, "", [("Content-Type", "image/svg+xml")], svgBodyV9⟩

/-- sw.js lines 326-364: v9 `createOfflineResponse`.  The document/.html
branch returns `caches.match('/index.html')`, which may be `none`. -/
def createOfflineResponseV9 (origin0 : String) (req : Request) (st : CacheState) :
    Option Response :=
  if req.destination == Dest.document || strEndsWith req.url.pathname ".html" then
    cachesMatch st (indexKey origin0)
  else if req.destination == Dest.image then
    some svgResponseV9
  else if req.destination == Dest.script then
    some ⟨200, "", [("Content-Type", "application/javascript")], "/* Offline */"⟩
  else if req.destination == Dest.style then
    some ⟨200, "", [("Content-Type", "text/css")], "/* Offline */"⟩
  else
    some ⟨503, "Service Unavailable", [], "Offline"⟩

/-- sw.js lines 260-280, the same-origin Cache-First branch of v9
`handleFetch`: on a cache hit the cached entry is returned and
`fetchAndCache` refreshes the store in the background (non-blocking). -/
def cacheFirstV9 (origin0 : String) (req : Request) (st : CacheState) (net : Net) :
    Option Response × CacheState :=
  match cachesMatch st req.key with
  | some cached => (some cached, fetchAndCacheV9 req st net)
  | none =>
    match net req.key with
    | some resp =>
      (some resp, if resp.ok then cachePut st CACHE_NAME_V9 req.key resp else st)
    | none => (cachesMatch st (indexKey origin0), st)

/-- sw.js lines 282-300, the Stale-While-Revalidate branch of v9
`handleFetch`; same shape as v8 but writing `CACHE_NAME_V9`. -/
def swrV9 (req : Request) (st : CacheState) (net : Net) :
    Option Response × CacheState :=
  match cachesMatch st req.key, net req.key with
  | some cached, some resp =>
    (some cached, if resp.ok then cachePut st CACHE_NAME_V9 req.key resp else st)
  | some cached, none => (some cached, st)
  | none, some resp =>
    (some resp, if resp.ok then cachePut st CACHE_NAME_V9 req.key resp else st)
  | none, none => (none, st)

/-- sw.js lines 302-311, the Network-First branch of v9 `handleFetch`:
fetch, fall back to `caches.match`, then to `createOfflineResponse`. -/
def networkFirstV9 (origin0 : String) (req : Request) (st : CacheState) (net : Net) :
    Option Response × CacheState :=
  match net req.key with
  | some resp => (some resp, st)
  | none =>
    match cachesMatch st req.key with
    | some cached => (some cached, st)
    | none => (createOfflineResponseV9 origin0 req st, st)

/-- sw.js lines 259-312: v9 `handleFetch`. -/
def handleFetchV9 (origin0 : String) (req : Request) (st : CacheState) (net : Net) :
    Option Response × CacheState :=
  if req.url.origin == origin0 then cacheFirstV9 origin0 req st net
  else if isCdnHostV9 req.url.hostname then swrV9 req st net
  else networkFirstV9 origin0 req st net

/-- sw.js lines 246-257: the v9 fetch listener with its two guards
(`!url.protocol.startsWith('http')` and `url.protocol.includes('extension')`). -/
def fetchListenerV9 (origin0 : String) (req : Request) (st : CacheState) (net : Net) :
    Option (Option Response × CacheState) :=
  if !(strStartsWith req.url.protocol "http") then none
  else if strIncludes req.url.protocol "extension" then none
  else some (handleFetchV9 origin0 req st net)

/-! ## v7.0.1 variant (src/unnamed/part_001) -/

/-- part_001 lines 135-136: hostname contains `cdnjs` or `fonts`. -/
def isCdnHostV7 (host : String) : Bool :=
  strIncludes host "cdnjs" || strIncludes host "fonts"

/-- The single-line SVG offline placeholder body of v7 (part_001 line 176). -/
def svgBodyV7 : String :=
  "<svg xmlns=\"http://www.w3.org/2000/svg\" width=\"100\" height=\"100\"><rect fill=\"#1a1a2e\" width=\"100\" height=\"100\"/><text fill=\"#667eea\" x=\"50\" y=\"55\" text-anchor=\"middle\" font-size=\"12\">Offline</text></svg>"

/-- part_001 lines 165-196: v7 `createOfflineResponse`. -/
def createOfflineResponseV7 (origin0 : String) (req : Request) (st : CacheState) :
    Option Response :=
  if req.destination == Dest.document || strEndsWith req.url.pathname ".html" then
    cachesMatch st (indexKey origin0)
  else if req.destination == Dest.image then
    some ⟨200, "", [("Content-Type", "image/svg+xml")], svgBodyV7⟩
  else if req.destination == Dest.script then
    some ⟨200, "", [("Content-Type", "application/javascript")], "/* offline */"⟩
  else if req.destination == Dest.style then
    some ⟨200, "", [("Content-Type", "text/css")], "/* offline */"⟩
  else
    some ⟨503, "", [], "Offline"⟩

/-- part_001 lines 117-132, the same-origin Cache-First branch of v7
`handleFetch`: no background refresh on a hit; a rejected fetch falls
back to `createOfflineResponse`. -/
def cacheFirstV7 (origin0 : String) (req : Request) (st : CacheState) (net : Net) :
    Option Response × CacheState :=
  match cachesMatch st req.key with
  | some cached => (some cached, st)
  | none =>
    match net req.key with
    | some resp =>
      (some resp, if resp.ok then cachePut st CACHE_NAME_V7 req.key resp else st)
    | none => (createOfflineResponseV7 origin0 req st, st)

/-- part_001 lines 134-151, the Stale-While-Revalidate branch of v7
`handleFetch`. -/
def swrV7 (req : Request) (st : CacheState) (net : Net) :
    Option Response × CacheState :=
  match cachesMatch st req.key, net req.key with
  | some cached, some resp =>
    (some cached, if resp.ok then cachePut st CACHE_NAME_V7 req.key resp else st)
  | some cached, none => (some cached, st)
  | none, some resp =>
    (some resp, if resp.ok then cachePut st CACHE_NAME_V7 req.key resp else st)
  | none, none => (none, st)

/-- part_001 lines 153-159, the Network-First branch of v7 `handleFetch`:
`return cached || createOfflineResponse(request)` after an awaited match. -/
def networkFirstV7 (origin0 : String) (req : Request) (st : CacheState) (net : Net) :
    Option Response × CacheState :=
  match net req.key with
  | some resp => (some resp, st)
  | none =>
    match cachesMatch st req.key with
    | some cached => (some cached, st)
    | none => (createOfflineResponseV7 origin0 req st, st)

/-- part_001 lines 116-160: v7 `handleFetch`. -/
def handleFetchV7 (origin0 : String) (req : Request) (st : CacheState) (net : Net) :
    Option Response × CacheState :=
  if req.url.origin == origin0 then cacheFirstV7 origin0 req st net
  else if isCdnHostV7 req.url.hostname then swrV7 req st net
  else networkFirstV7 origin0 req st net

/-- part_001 lines 103-114: the v7 fetch listener (same guards as v9). -/
def fetchListenerV7 (origin0 : String) (req : Request) (st : CacheState) (net : Net) :
    Option (Option Response × CacheState) :=
  if !(strStartsWith req.url.protocol "http") then none
  else if strIncludes req.url.protocol "extension" then none
  else some (handleFetchV7 origin0 req st net)

/-! ## v6.0 variant (src/unnamed/part_000) -/

/-- part_000 lines 32-49: the single Network-First strategy of v6.  A
resolved fetch is returned, and a status-200 response is additionally
stored under `CACHE_NAME` (fire-and-forget `.then`); a rejected fetch
falls back to `caches.match(request)`, then to
`caches.match('/index.html')`, either of which may be `undefined`. -/
def networkFirstV6 (origin0 : String) (req : Request) (st : CacheState) (net : Net) :
    Option Response × CacheState :=
  match net req.key with
  | some resp =>
    (some resp, if resp.status == 200 then cachePut st CACHE_NAME_V6 req.key resp else st)
  | none =>
    match cachesMatch st req.key with
    | some cached => (some cached, st)
    | none => (cachesMatch st (indexKey origin0), st)

/-- part_000 lines 20-50: the v6 fetch listener.  Non-GET requests pass
through; cross-origin requests whose hostname contains neither `cdn`
nor `fonts` pass through; every intercepted request — same-origin
included — is handled Network-First. -/
def fetchListenerV6 (origin0 : String) (req : Request) (st : CacheState) (net : Net) :
    Option (Option Response × CacheState) :=
  if !(req.method == "GET") then none
  else if !(req.url.origin == origin0) && !(strIncludes req.url.hostname "cdn") &&
      !(strIncludes req.url.hostname "fonts") then none
  else some (networkFirstV6 origin0 req st net)

/-! ## Activate, message, install, push handlers -/

/-- The activate listeners (sw.js lines 70-84 and 220-241, part_001
lines 78-98): enumerate `caches.keys()`, delete every name different
from both the current precache and runtime store names. -/
def activateSW (keep1 keep2 : String) (st : CacheState) : CacheState :=
  deleteCachesList
    ((storeNames st).filter (fun k => !(k == keep1) && !(k == keep2))) st

/-- sw.js lines 70-84: the v8 activate listener. -/
def activateV8 (st : CacheState) : CacheState :=
  activateSW CACHE_NAME_V8 RUNTIME_CACHE_V8 st

/-- sw.js lines 220-241: the v9 activate listener. -/
def activateV9 (st : CacheState) : CacheState :=
  activateSW CACHE_NAME_V9 RUNTIME_CACHE_V9 st

/-- part_001 lines 78-98: the v7 activate listener. -/
def activateV7 (st : CacheState) : CacheState :=
  activateSW CACHE_NAME_V7 RUNTIME_CACHE_V7 st

/-- sw.js lines 369-383: the cache effect of the v9 message listener.
`SKIP_WAITING` and `GET_VERSION` do not touch the cache; `CLEAR_CACHE`
runs `caches.keys()` and deletes every listed store. -/
def handleMessageV9 (data : String) (st : CacheState) : CacheState :=
  if data == "CLEAR_CACHE" then deleteCachesList (storeNames st) st else st

/-- part_001 lines 201-209: the cache effect of the v7 message listener.
It handles only `SKIP_WAITING` and `GET_VERSION`, neither of which
touches the cache storage; in particular a `CLEAR_CACHE` message is
ignored and every store is left intact. -/
def handleMessageV7 (_data : String) (st : CacheState) : CacheState := st

/-- The install loops (sw.js lines 33-67 and 177-215, part_001 lines
37-73): for each asset URL in order, fetch it and store a 2xx response
under the precache store name; failures are logged and skipped. -/
def installLoop (cacheName : String) (keys : List String) (net : Net)
    (st : CacheState) : CacheState :=
  keys.foldl
    (fun s u =>
      match net u with
      | some resp => if resp.ok then cachePut s cacheName u resp else s
      | none => s)
    st

/-- sw.js lines 33-67: v8 install (local paths are resolved against the
worker's origin, CDN URLs are absolute). -/
def installV8 (origin0 : String) (net : Net) (st : CacheState) : CacheState :=
  installLoop CACHE_NAME_V8
    (PRECACHE_ASSETS_V8.map (fun p => origin0 ++ p) ++ CDN_ASSETS_V8) net st

/-- sw.js lines 177-215: v9 install. -/
def installV9 (origin0 : String) (net : Net) (st : CacheState) : CacheState :=
  installLoop CACHE_NAME_V9
    (PRECACHE_FILES_V9.map (fun p => origin0 ++ p) ++ CDN_RESOURCES_V9) net st

/-- part_001 lines 37-73: v7 install. -/
def installV7 (origin0 : String) (net : Net) (st : CacheState) : CacheState :=
  installLoop CACHE_NAME_V7
    (PRECACHE_ASSETS_V7.map (fun p => origin0 ++ p) ++ CDN_ASSETS_V7) net st

/-! ## Push listener (sw.js lines 395-414) -/

/-- The JSON fields of a push payload that the listener reads; a truthy
non-object payload is represented with all fields absent. -/
structure PushJson where
  title : Option String
  body : Option String
  url : Option String
  deriving DecidableEq

/-- The possible states of `event.data` as seen by
`event.data?.json()`: absent data (optional chaining yields
`undefined`), a successfully parsed value (`truthy = false` when the
parsed JSON value is falsy: `null`, `false`, `0` or `""`), or a payload
on which `json()` throws a `SyntaxError`. -/
inductive PushData where
  | noData
  | parsed (truthy : Bool) (j : PushJson)
  | malformed
  deriving DecidableEq

/-- The argument record of `showNotification` built by the listener. -/
structure NotificationCall where
  title : String
  body : String
  icon : String
  badge : String
  dir : String
  lang : String
  vibrate : List Nat
  data : String
  deriving DecidableEq

/-- JS `x || d` on an optional string: the default replaces both an
absent and an empty (falsy) string. -/
def jsOrStr (x : Option String) (d : String) : String :=
  match x with
  | some s => if s == "" then d else s
  | none => d

/-- sw.js lines 395-414: the v9 push listener.
`const data = event.data?.json() || {}` yields `{}` when `event.data`
is absent or parses to a falsy value; but when `json()` throws (payload
that is not valid JSON) there is no `try`/`catch`, so the listener
throws before any notification is built — modelled as `Except.error`. -/
def pushListenerV9 (pd : PushData) : Except Unit NotificationCall :=
  match pd with
  | PushData.malformed => Except.error ()
  | PushData.noData =>
    Except.ok
      ⟨"PDF Maker Pro", "إشعار جديد", "/icons/icon-192.png",
        "/icons/icon-72.png", "rtl", "ar", [100, 50, 100], "/"⟩
  | PushData.parsed truthy j =>
    let d : PushJson := if truthy then j else ⟨none, none, none⟩
    Except.ok
      ⟨jsOrStr d.title "PDF Maker Pro", jsOrStr d.body "إشعار جديد",
        "/icons/icon-192.png", "/icons/icon-72.png", "rtl", "ar",
        [100, 50, 100], jsOrStr d.url "/"⟩

/-! ## Request classification -/

/-- The classification performed by the v8 fetch listener together with
the dispatch of v8 `handleFetch` (sw.js lines 87-94 and 96-138),
written with the code's own guard structure. -/
def classifyV8 (origin0 : String) (u : Url) : Strategy :=
  if !(strStartsWith u.protocol "http") then Strategy.passThrough
  else if u.origin == origin0 then Strategy.cacheFirst
  else if isCdnHostV8 u.hostname then Strategy.staleWhileRevalidate
  else Strategy.networkFirst

/-- The classification performed by the v7 fetch listener together with
the dispatch of v7 `handleFetch` (part_001 lines 103-114 and 116-160),
written with the code's own guard structure. -/
def classifyV7 (origin0 : String) (u : Url) : Strategy :=
  if !(strStartsWith u.protocol "http") then Strategy.passThrough
  else if strIncludes u.protocol "extension" then Strategy.passThrough
  else if u.origin == origin0 then Strategy.cacheFirst
  else if isCdnHostV7 u.hostname then Strategy.staleWhileRevalidate
  else Strategy.networkFirst

/-- An ordered rule list evaluated first-match-wins, the form the claim
describes the classifier in. -/
def firstMatch (origin0 : String)
    (rules : List ((String → Url → Bool) × Strategy)) (dflt : Strategy)
    (u : Url) : Strategy :=
  match rules with
  | [] => dflt
  | (p, s) :: rest =>
    if p origin0 u then s else firstMatch origin0 rest dflt u

/-- The v8 routing rules as an ordered (predicate, strategy) list, with
the predicates exactly as the code tests them. -/
def routingRulesV8 : List ((String → Url → Bool) × Strategy) :=
  [(fun _ u => !(strStartsWith u.protocol "http"), Strategy.passThrough),
   (fun origin0 u => u.origin == origin0, Strategy.cacheFirst),
   (fun _ u => isCdnHostV8 u.hostname, Strategy.staleWhileRevalidate)]

/-- The v7 routing rules as an ordered (predicate, strategy) list. -/
def routingRulesV7 : List ((String → Url → Bool) × Strategy) :=
  [(fun _ u => !(strStartsWith u.protocol "http") ||
      strIncludes u.protocol "extension", Strategy.passThrough),
   (fun origin0 u => u.origin == origin0, Strategy.cacheFirst),
   (fun _ u => isCdnHostV7 u.hostname, Strategy.staleWhileRevalidate)]

/-- First-match evaluation of the v8 rule list, defaulting to
Network-First. -/
def classifyFirstMatchV8 (origin0 : String) (u : Url) : Strategy :=
  firstMatch origin0 routingRulesV8 Strategy.networkFirst u

/-- First-match evaluation of the v7 rule list, defaulting to
Network-First. -/
def classifyFirstMatchV7 (origin0 : String) (u : Url) : Strategy :=
  firstMatch origin0 routingRulesV7 Strategy.networkFirst u

/-- The classification performed by the v9 fetch listener together with
the dispatch of v9 `handleFetch` (sw.js lines 246-257 and 259-312),
written with the code's own guard structure. -/
def classifyV9 (origin0 : String) (u : Url) : Strategy :=
  if !(strStartsWith u.protocol "http") then Strategy.passThrough
  else if strIncludes u.protocol "extension" then Strategy.passThrough
  else if u.origin == origin0 then Strategy.cacheFirst
  else if isCdnHostV9 u.hostname then Strategy.staleWhileRevalidate
  else Strategy.networkFirst

/-- The v9 routing rules as an ordered (predicate, strategy) list, with
the predicates exactly as the code tests them. -/
def routingRulesV9 : List ((String → Url → Bool) × Strategy) :=
  [(fun _ u => !(strStartsWith u.protocol "http") ||
      strIncludes u.protocol "extension", Strategy.passThrough),
   (fun origin0 u => u.origin == origin0, Strategy.cacheFirst),
   (fun _ u => isCdnHostV9 u.hostname, Strategy.staleWhileRevalidate)]

/-- First-match evaluation of the v9 rule list, defaulting to
Network-First. -/
def classifyFirstMatchV9 (origin0 : String) (u : Url) : Strategy :=
  firstMatch origin0 routingRulesV9 Strategy.networkFirst u

/-- The classification performed by the v6 fetch listener (part_000
lines 20-50), written with the code's own guard structure.  It depends
on the request's method as well as its URL, and every intercepted
request — same-origin included — is handled Network-First. -/
def classifyV6 (origin0 : String) (req : Request) : Strategy :=
  if !(req.method == "GET") then Strategy.passThrough
  else if !(req.url.origin == origin0) && !(strIncludes req.url.hostname "cdn") &&
      !(strIncludes req.url.hostname "fonts") then Strategy.passThrough
  else Strategy.networkFirst

/-- First-match rule evaluation over whole requests (the v6 guards read
the method, not only the URL). -/
def firstMatchReq (origin0 : String)
    (rules : List ((String → Request → Bool) × Strategy)) (dflt : Strategy)
    (req : Request) : Strategy :=
  match rules with
  | [] => dflt
  | (p, s) :: rest =>
    if p origin0 req then s else firstMatchReq origin0 rest dflt req

/-- The v6 routing rules as an ordered (predicate, strategy) list. -/
def routingRulesV6 : List ((String → Request → Bool) × Strategy) :=
  [(fun _ r => !(r.method == "GET"), Strategy.passThrough),
   (fun origin0 r => !(r.url.origin == origin0) &&
      !(strIncludes r.url.hostname "cdn") &&
      !(strIncludes r.url.hostname "fonts"), Strategy.passThrough)]

/-- First-match evaluation of the v6 rule list, defaulting to
Network-First. -/
def classifyFirstMatchV6 (origin0 : String) (req : Request) : Strategy :=
  firstMatchReq origin0 routingRulesV6 Strategy.networkFirst req

/-- The explicit CDN/font hostnames named in the repository: the hosts
of the CDN asset manifests plus `fonts.gstatic.com`, which v9's routing
condition names explicitly. -/
def allowListHosts : List String :=
  ["cdnjs.cloudflare.com", "fonts.googleapis.com", "fonts.gstatic.com"]

/-- Modelled from the spec claim's words (for comparison with the
classifiers translated from the code, `classifyV8` above all): a non-HTTP(S) or
browser-extension scheme is passed through (every browser-extension
scheme is non-HTTP(S)); same origin is Cache-First; a hostname on the
explicit CDN/font host allow-list is Stale-While-Revalidate; everything
else is Network-First. -/
def classifySpecC1 (origin0 : String) (u : Url) : Strategy :=
  if !(u.protocol == "http:" || u.protocol == "https:") then Strategy.passThrough
  else if u.origin == origin0 then Strategy.cacheFirst
  else if allowListHosts.contains u.hostname then Strategy.staleWhileRevalidate
  else Strategy.networkFirst

/-! ## A small XML tag-balance checker, to state syntactic validity of
the SVG placeholder bodies -/

/-- Read a tag name: characters up to whitespace, `/` or the closing
angle bracket. -/
def xmlTagName : List Char → String → String × List Char
  | [], acc => (acc, [])
  | c :: cs, acc =>
    if c == ' ' || c == '\n' || c == '\t' || c == '\r' || c == '/' || c == '>'
    then (acc, c :: cs)
    else xmlTagName cs (acc.push c)

/-- Skip an opening tag's attributes up to its closing angle bracket;
returns whether the tag is self-closing and the remaining input.
Attribute values here contain no angle brackets, so scanning for the
closing bracket is sound for these documents. -/
def xmlSkipAttrs : List Char → Option (Bool × List Char)
  | [] => none
  | '>' :: cs => some (false, cs)
  | '/' :: '>' :: cs => some (true, cs)
  | _ :: cs => xmlSkipAttrs cs

/-- Fueled scanner: checks that open and close tags are properly nested
and that the input ends with an empty tag stack. -/
def xmlScan : Nat → List Char → List String → Bool
  | 0, _, _ => false
  | _ + 1, [], stack => stack.isEmpty
  | fuel + 1, '<' :: '/' :: cs, stack =>
    match xmlTagName cs "" with
    | (name, '>' :: rest) =>
      match stack with
      | top :: stack2 => top == name && xmlScan fuel rest stack2
      | [] => false
    | _ => false
  | fuel + 1, '<' :: cs, stack =>
    match xmlTagName cs "" with
    | (name, rest) =>
      !(name == "") &&
        match xmlSkipAttrs rest with
        | some (selfClosing, rest2) =>
          if selfClosing then xmlScan fuel rest2 stack
          else xmlScan fuel rest2 (name :: stack)
        | none => false
  | fuel + 1, _ :: cs, stack => xmlScan fuel cs stack

/-- A string is well-formed markup when the scanner accepts it. -/
def xmlWellFormed (s : String) : Bool :=
  xmlScan (s.toList.length + 1) s.toList []

/-- part_000 lines 53-64: the v6 activate listener keeps only the single
`CACHE_NAME` store. -/
def activateV6 (st : CacheState) : CacheState :=
  deleteCachesList ((storeNames st).filter (fun k => !(k == CACHE_NAME_V6))) st

/-! ## Concrete inputs used by witnesses and counterexamples -/

/-- A representative value of `self.location.origin` for the worker. -/
def appOriginW : String := "https://app.example"

/-- A network oracle in which every fetch rejects. -/
def netDown : Net := fun _ => none

/-- A CDN request (hostname on the cdnjs host). -/
def cdnReq : Request :=
  ⟨⟨"https:", "cdnjs.cloudflare.com", "/ajax/libs/pdf.js/3.11.174/pdf.min.js"⟩,
    Dest.script, "GET"⟩

/-- A same-origin navigation request for `/index.html`. -/
def idxReq : Request :=
  ⟨⟨"https:", "app.example", "/index.html"⟩, Dest.document, "GET"⟩

/-- A cross-origin request to a host that is neither same-origin nor a
CDN/font host: it is routed Network-First. -/
def apiReq : Request := ⟨⟨"https:", "api.example", "/data"⟩, Dest.other, "GET"⟩

/-- A plain 2xx network response. -/
def okResp : Response := ⟨200, "OK", [], "payload"⟩

/-- A same-origin request for `/manifest.json`. -/
def manifestReq : Request :=
  ⟨⟨"https:", "app.example", "/manifest.json"⟩, Dest.other, "GET"⟩

/-- A cached response for the manifest. -/
def manifestResp : Response :=
  ⟨200, "", [("Content-Type", "application/json")], "manifest"⟩

/-- A cache state in which the manifest is cached in the precache store. -/
def stManifest : CacheState := [(CACHE_NAME_V9, [(manifestReq.key, manifestResp)])]

/-- An HTML response, as cached for the application shell. -/
def htmlRespW : Response :=
  ⟨200, "", [("Content-Type", "text/html")], "<html></html>"⟩

/-- A cache state holding only the cached `/index.html` shell. -/
def stIdx : CacheState := [(CACHE_NAME_V9, [(indexKey appOriginW, htmlRespW)])]

/-- An image-destination request whose pathname ends in `.html`
(for example `<img src="pic.html">`). -/
def imgHtmlReq : Request :=
  ⟨⟨"https:", "app.example", "/pic.html"⟩, Dest.image, "GET"⟩

/-- An image-destination request with an ordinary image pathname. -/
def imgReqW : Request :=
  ⟨⟨"https:", "app.example", "/photo.png"⟩, Dest.image, "GET"⟩

/-- A cache state in which `apiReq` has a previously cached copy. -/
def stApi : CacheState := [(CACHE_NAME_V9, [(apiReq.key, manifestResp)])]

/-- A v7 cache state in which the manifest is a previously cached asset
in the v7 precache store. -/
def stManifestV7 : CacheState := [(CACHE_NAME_V7, [(manifestReq.key, manifestResp)])]

/-- A cache state holding an outdated store next to the current ones. -/
def activateStW : CacheState :=
  [("old-cache", []), (CACHE_NAME_V8, []), (CACHE_NAME_V9, []),
   (CACHE_NAME_V7, []), (CACHE_NAME_V6, [])]

/-- A URL whose hostname contains the substring `fonts` without being
one of the explicitly named CDN/font hosts. -/
def fontsEvilUrl : Url := ⟨"https:", "fonts.evil.com", "/style.css"⟩

/-- A URL with a scheme that starts with `http` yet is not HTTP(S). -/
def httpxUrl : Url := ⟨"httpx:", "weird.example", "/"⟩

/-! ## Helper lemmas -/

theorem storeContents_cachePut_ne (st : CacheState) (name key other : String)
    (r : Response) (h : other ≠ name) :
    storeContents (cachePut st name key r) other = storeContents st other := by
  have hno : (name == other) = false := by simp [Ne.symm h]
  induction st with
  | nil => simp [cachePut, storeContents, hno]
  | cons p rest ih =>
    obtain ⟨n, s⟩ := p
    by_cases hn : n = name
    · subst hn
      simp [cachePut, storeContents, hno]
    · have hnn : (n == name) = false := by simp [hn]
      simp only [cachePut, hnn, Bool.false_eq_true, if_false, storeContents]
      by_cases ho : n = other
      · simp [ho]
      · have hno2 : (n == other) = false := by simp [ho]
        simp [hno2, ih]

theorem storeNames_cachesDelete (st : CacheState) (n : String) :
    storeNames (cachesDelete st n) = (storeNames st).filter (fun k => !(k == n)) := by
  induction st with
  | nil => rfl
  | cons p rest ih =>
    obtain ⟨m, s⟩ := p
    by_cases hm : (m == n) = true
    · simp [cachesDelete, storeNames, List.filter, hm] at ih ⊢
      simpa [cachesDelete, storeNames] using ih
    · simp only [Bool.not_eq_true] at hm
      simp [cachesDelete, storeNames, List.filter, hm] at ih ⊢
      simpa [cachesDelete, storeNames] using ih

theorem deleteCachesList_cons (n : String) (ns : List String) (st : CacheState) :
    deleteCachesList (n :: ns) st = deleteCachesList ns (cachesDelete st n) := rfl

theorem mem_storeNames_deleteCachesList {k : String} (names : List String)
    (st : CacheState) (h : k ∈ storeNames (deleteCachesList names st)) :
    k ∈ storeNames st ∧ ∀ n ∈ names, k ≠ n := by
  induction names generalizing st with
  | nil => exact ⟨h, by simp⟩
  | cons n ns ih =>
    rw [deleteCachesList_cons] at h
    obtain ⟨hmem, hall⟩ := ih (cachesDelete st n) h
    rw [storeNames_cachesDelete] at hmem
    obtain ⟨hmem2, hpred⟩ := List.mem_filter.mp hmem
    refine ⟨hmem2, ?_⟩
    intro m hm
    rcases List.mem_cons.mp hm with hm | hm
    · subst hm
      simpa using hpred
    · exact hall m hm

theorem deleteCachesList_total (names : List String) (st : CacheState)
    (h : ∀ p ∈ st, p.1 ∈ names) : deleteCachesList names st = [] := by
  induction names generalizing st with
  | nil =>
    cases st with
    | nil => rfl
    | cons p rest => exact absurd (h p (by simp)) (by simp)
  | cons n ns ih =>
    rw [deleteCachesList_cons]
    apply ih
    intro p hp
    obtain ⟨hmem, hpred⟩ := List.mem_filter.mp hp
    have hin := h p hmem
    rcases List.mem_cons.mp hin with heq | hin2
    · simp [heq] at hpred
    · exact hin2

theorem storeContents_deleteCachesList_not_mem (names : List String)
    (st : CacheState) (other : String) (h : other ∉ names) :
    storeContents (deleteCachesList names st) other = storeContents st other := by
  induction names generalizing st with
  | nil => rfl
  | cons n ns ih =>
    rw [deleteCachesList_cons]
    rw [ih _ (fun hc => h (List.mem_cons.mpr (Or.inr hc)))]
    have hne : other ≠ n := fun hc => h (List.mem_cons.mpr (Or.inl hc))
    have hno : (n == other) = false := by simp [Ne.symm hne]
    clear h ih
    induction st with
    | nil => rfl
    | cons p rest ihst =>
      obtain ⟨m, s⟩ := p
      by_cases hm : m = n
      · subst hm
        simp [cachesDelete, List.filter, storeContents, hno] at ihst ⊢
        simpa [cachesDelete] using ihst
      · have hmn : (m == n) = false := by simp [hm]
        simp only [cachesDelete, List.filter, hmn, Bool.not_false, storeContents]
        by_cases ho : m = other
        · simp [ho]
        · have hmo : (m == other) = false := by simp [ho]
          simp only [hmo, Bool.false_eq_true, if_false]
          simpa [cachesDelete] using ihst

theorem installLoop_cons (cacheName u : String) (us : List String) (net : Net)
    (st : CacheState) :
    installLoop cacheName (u :: us) net st =
      installLoop cacheName us net
        (match net u with
         | some resp => if resp.ok then cachePut st cacheName u resp else st
         | none => st) := rfl

theorem storeContents_installLoop_ne (cacheName other : String)
    (keys : List String) (net : Net) (st : CacheState) (h : other ≠ cacheName) :
    storeContents (installLoop cacheName keys net st) other = storeContents st other := by
  induction keys generalizing st with
  | nil => rfl
  | cons u us ih =>
    rw [installLoop_cons, ih]
    cases hn : net u with
    | none => rfl
    | some resp =>
      by_cases hok : resp.ok = true
      · simp only [hok, if_true]
        exact storeContents_cachePut_ne st cacheName u other resp h
      · simp [hok]

theorem putIfOk_storeContents_ne (name key other : String) (st : CacheState)
    (r : Response) (h : other ≠ name) :
    storeContents (if r.ok then cachePut st name key r else st) other =
      storeContents st other := by
  by_cases hok : r.ok = true
  · simp only [hok, if_true]
    exact storeContents_cachePut_ne st name key other r h
  · simp [hok]

theorem fetchAndCacheV9_storeContents_ne (req : Request) (st : CacheState)
    (net : Net) (other : String) (h : other ≠ CACHE_NAME_V9) :
    storeContents (fetchAndCacheV9 req st net) other = storeContents st other := by
  unfold fetchAndCacheV9
  split
  · exact putIfOk_storeContents_ne _ _ _ _ _ h
  · rfl

theorem handleFetchV8_storeContents_ne (origin0 : String) (req : Request)
    (st : CacheState) (net : Net) (other : String) (h : other ≠ CACHE_NAME_V8) :
    storeContents (handleFetchV8 origin0 req st net).2 other =
      storeContents st other := by
  unfold handleFetchV8 cacheFirstV8 swrV8 networkFirstV8
  repeat' split
  all_goals first
    | rfl
    | exact storeContents_cachePut_ne _ _ _ _ _ h

theorem handleFetchV9_storeContents_ne (origin0 : String) (req : Request)
    (st : CacheState) (net : Net) (other : String) (h : other ≠ CACHE_NAME_V9) :
    storeContents (handleFetchV9 origin0 req st net).2 other =
      storeContents st other := by
  unfold handleFetchV9 cacheFirstV9 swrV9 networkFirstV9 fetchAndCacheV9
  repeat' split
  all_goals first
    | rfl
    | exact storeContents_cachePut_ne _ _ _ _ _ h

theorem handleFetchV7_storeContents_ne (origin0 : String) (req : Request)
    (st : CacheState) (net : Net) (other : String) (h : other ≠ CACHE_NAME_V7) :
    storeContents (handleFetchV7 origin0 req st net).2 other =
      storeContents st other := by
  unfold handleFetchV7 cacheFirstV7 swrV7 networkFirstV7
  repeat' split
  all_goals first
    | rfl
    | exact storeContents_cachePut_ne _ _ _ _ _ h

theorem activateSW_mem {a b k : String} (st : CacheState)
    (h : k ∈ storeNames (activateSW a b st)) : k = a ∨ k = b := by
  obtain ⟨hmem, hall⟩ := mem_storeNames_deleteCachesList _ _ h
  by_contra hc
  push_neg at hc
  exact hall k (List.mem_filter.mpr ⟨hmem, by simp [hc.1, hc.2]⟩) rfl

theorem activateSW_storeContents_keep2 (a b : String) (st : CacheState) :
    storeContents (activateSW a b st) b = storeContents st b := by
  apply storeContents_deleteCachesList_not_mem
  intro hmem
  have hpred := (List.mem_filter.mp hmem).2
  simp at hpred

theorem activateV6_mem {k : String} (st : CacheState)
    (h : k ∈ storeNames (activateV6 st)) : k = CACHE_NAME_V6 := by
  obtain ⟨hmem, hall⟩ := mem_storeNames_deleteCachesList _ _ h
  by_contra hc
  exact hall k (List.mem_filter.mpr ⟨hmem, by simp [hc]⟩) rfl

/-! ## Claim theorems -/

/-- Claim C2: for every request whose origin equals the app's own
origin, if a cached entry for that request exists in the cache store,
the router (v8 and v9) returns that cached entry, and the returned
value does not depend on the network oracle at all — the background
refresh in v9 only updates the cache state, never the delivered
response. -/
theorem C2_same_origin_cache_hit (origin0 : String) (req : Request)
    (st : CacheState) (net : Net) (cached : Response)
    (horig : req.url.origin = origin0)
    (hc : cachesMatch st req.key = some cached) :
    (handleFetchV8 origin0 req st net).1 = some cached ∧
    (handleFetchV9 origin0 req st net).1 = some cached := by
  have hb : (req.url.origin == origin0) = true := by simp [horig]
  constructor
  · simp [handleFetchV8, hb, cacheFirstV8, hc]
  · simp [handleFetchV9, hb, cacheFirstV9, hc]

/-- Witness for C2 at a concrete cached manifest request with the
network down. -/
theorem C2_same_origin_cache_hit_witness :
    (handleFetchV8 appOriginW manifestReq stManifest netDown).1 = some manifestResp ∧
    (handleFetchV9 appOriginW manifestReq stManifest netDown).1 = some manifestResp :=
  C2_same_origin_cache_hit appOriginW manifestReq stManifest netDown manifestResp
    (by decide) (by decide)

/-- Claim C3 (code bug evidence): for a CDN request with no cached entry
and a failing network, every variant's Stale-While-Revalidate branch
evaluates `return cached || fetchPromise` with `cached` undefined and
the fetch rejected, so `.catch(() => cached)` resolves the interception
to `undefined` — modelled `none` — instead of an offline placeholder. -/
theorem C3_cdn_offline_absent :
    (handleFetchV8 appOriginW cdnReq [] netDown).1 = none ∧
    (handleFetchV9 appOriginW cdnReq [] netDown).1 = none ∧
    (handleFetchV7 appOriginW cdnReq [] netDown).1 = none :=
  ⟨by decide, by decide, by decide⟩

/-- Claim C4: after the activate handler runs, every cache store that
remains is named by the current precache or runtime store name (v8, v9,
v7) — or by the sole precache name in v6, which declares no runtime
store; every other store has been deleted. -/
theorem C4_activate_deletes_other_stores (st : CacheState) (k : String) :
    (k ∈ storeNames (activateV8 st) → k = CACHE_NAME_V8 ∨ k = RUNTIME_CACHE_V8) ∧
    (k ∈ storeNames (activateV9 st) → k = CACHE_NAME_V9 ∨ k = RUNTIME_CACHE_V9) ∧
    (k ∈ storeNames (activateV7 st) → k = CACHE_NAME_V7 ∨ k = RUNTIME_CACHE_V7) ∧
    (k ∈ storeNames (activateV6 st) → k = CACHE_NAME_V6) :=
  ⟨fun h => activateSW_mem st h, fun h => activateSW_mem st h,
    fun h => activateSW_mem st h, fun h => activateV6_mem st h⟩

/-- Witness for C4 on a concrete cache state holding an outdated store
next to the current ones. -/
theorem C4_activate_deletes_other_stores_witness :
    (CACHE_NAME_V8 = CACHE_NAME_V8 ∨ CACHE_NAME_V8 = RUNTIME_CACHE_V8) ∧
    (CACHE_NAME_V9 = CACHE_NAME_V9 ∨ CACHE_NAME_V9 = RUNTIME_CACHE_V9) ∧
    (CACHE_NAME_V7 = CACHE_NAME_V7 ∨ CACHE_NAME_V7 = RUNTIME_CACHE_V7) ∧
    CACHE_NAME_V6 = CACHE_NAME_V6 :=
  ⟨(C4_activate_deletes_other_stores activateStW CACHE_NAME_V8).1 (by decide),
   (C4_activate_deletes_other_stores activateStW CACHE_NAME_V9).2.1 (by decide),
   (C4_activate_deletes_other_stores activateStW CACHE_NAME_V7).2.2.1 (by decide),
   (C4_activate_deletes_other_stores activateStW CACHE_NAME_V6).2.2.2 (by decide)⟩

/-- Claim C6 (code bug evidence): a request for `/index.html` with every
cache store empty and a failing network makes every variant resolve the
interception to `undefined` — modelled `none` — because the fallback
`caches.match('/index.html')` (reached directly in v8/v9, and through
`createOfflineResponse`'s document branch in v7) finds nothing; no
503/offline text fallback is produced. -/
theorem C6_index_empty_caches_absent :
    (handleFetchV8 appOriginW idxReq [] netDown).1 = none ∧
    (handleFetchV9 appOriginW idxReq [] netDown).1 = none ∧
    (handleFetchV7 appOriginW idxReq [] netDown).1 = none ∧
    createOfflineResponseV7 appOriginW idxReq [] = none :=
  ⟨by decide, by decide, by decide, by decide⟩

/-- Claim C8 (code bug evidence): `event.data?.json() || {}` substitutes
the defaults when the push event carries no payload, but when the
payload fails to parse as JSON, `json()` throws and there is no
`try`/`catch`, so the listener throws instead of showing the default
notification. -/
theorem C8_push_malformed_throws :
    pushListenerV9 PushData.malformed = Except.error () ∧
    pushListenerV9 PushData.noData =
      Except.ok ⟨"PDF Maker Pro", "إشعار جديد", "/icons/icon-192.png",
        "/icons/icon-72.png", "rtl", "ar", [100, 50, 100], "/"⟩ :=
  ⟨rfl, rfl⟩

/-- Claim C10: in every variant that declares a runtime store name, no
operation — fetch handling in any strategy, the v9 background refresh,
install precaching, or activation — changes the contents of the runtime
store; every cache write targets the precache store, so the runtime
store stays empty across all operations. -/
theorem C10_runtime_store_never_written (origin0 : String) (req : Request)
    (st : CacheState) (net : Net) :
    storeContents (handleFetchV8 origin0 req st net).2 RUNTIME_CACHE_V8 =
      storeContents st RUNTIME_CACHE_V8 ∧
    storeContents (handleFetchV9 origin0 req st net).2 RUNTIME_CACHE_V9 =
      storeContents st RUNTIME_CACHE_V9 ∧
    storeContents (handleFetchV7 origin0 req st net).2 RUNTIME_CACHE_V7 =
      storeContents st RUNTIME_CACHE_V7 ∧
    storeContents (fetchAndCacheV9 req st net) RUNTIME_CACHE_V9 =
      storeContents st RUNTIME_CACHE_V9 ∧
    storeContents (installV8 origin0 net st) RUNTIME_CACHE_V8 =
      storeContents st RUNTIME_CACHE_V8 ∧
    storeContents (installV9 origin0 net st) RUNTIME_CACHE_V9 =
      storeContents st RUNTIME_CACHE_V9 ∧
    storeContents (installV7 origin0 net st) RUNTIME_CACHE_V7 =
      storeContents st RUNTIME_CACHE_V7 ∧
    storeContents (activateV8 st) RUNTIME_CACHE_V8 =
      storeContents st RUNTIME_CACHE_V8 ∧
    storeContents (activateV9 st) RUNTIME_CACHE_V9 =
      storeContents st RUNTIME_CACHE_V9 ∧
    storeContents (activateV7 st) RUNTIME_CACHE_V7 =
      storeContents st RUNTIME_CACHE_V7 := by
  refine ⟨?_, ?_, ?_, ?_, ?_, ?_, ?_, ?_, ?_, ?_⟩
  · exact handleFetchV8_storeContents_ne _ _ _ _ _ (by decide)
  · exact handleFetchV9_storeContents_ne _ _ _ _ _ (by decide)
  · exact handleFetchV7_storeContents_ne _ _ _ _ _ (by decide)
  · exact fetchAndCacheV9_storeContents_ne _ _ _ _ (by decide)
  · exact storeContents_installLoop_ne _ _ _ _ _ (by decide)
  · exact storeContents_installLoop_ne _ _ _ _ _ (by decide)
  · exact storeContents_installLoop_ne _ _ _ _ _ (by decide)
  · exact activateSW_storeContents_keep2 _ _ _
  · exact activateSW_storeContents_keep2 _ _ _
  · exact activateSW_storeContents_keep2 _ _ _

/-- Claim C1 (counterexample): the classifier the claim describes —
explicit hostname allow-list, every non-HTTP(S) scheme passed through,
same origin always Cache-First — disagrees with the code's
classifiers: a hostname that merely contains the substring `fonts` is
routed Stale-While-Revalidate although it is on no allow-list; the
non-HTTP(S) scheme `httpx:`, which satisfies
`protocol.startsWith('http')`, is intercepted and routed Network-First
instead of being passed through; and the cited v6 fetch listener
routes a same-origin GET request Network-First, not Cache-First. -/
theorem C1_classification_counterexample :
    (classifyV8 appOriginW fontsEvilUrl = Strategy.staleWhileRevalidate ∧
      classifySpecC1 appOriginW fontsEvilUrl = Strategy.networkFirst) ∧
    (classifyV8 appOriginW httpxUrl = Strategy.networkFirst ∧
      classifySpecC1 appOriginW httpxUrl = Strategy.passThrough) ∧
    (classifyV6 appOriginW manifestReq = Strategy.networkFirst ∧
      classifySpecC1 appOriginW manifestReq.url = Strategy.cacheFirst) :=
  ⟨⟨by decide, by decide⟩, ⟨by decide, by decide⟩, ⟨by decide, by decide⟩⟩

/-- Claim C1 (amended): in v8, v7 and v9 the router classifies every
intercepted request by first match in a fixed order — a scheme not
starting with `http` (v7/v9: also a scheme containing `extension`) is
passed through uninterpreted; a request whose origin equals the app's
own origin is Cache-First; a request whose hostname contains one of the
CDN/font substrings (`cdnjs`/`fonts` in v8 and v7; `cdnjs`,
`fonts.googleapis`, `fonts.gstatic` in v9) is Stale-While-Revalidate;
every other request is Network-First — and each fetch listener
dispatches exactly according to this classification.  The v6 variant
instead passes through non-GET requests and cross-origin requests
whose hostname contains neither `cdn` nor `fonts`, and handles every
request it intercepts — same-origin included — Network-First. -/
theorem C1_first_match_classification (origin0 : String) (req : Request)
    (st : CacheState) (net : Net) :
    classifyV8 origin0 req.url = classifyFirstMatchV8 origin0 req.url ∧
    classifyV7 origin0 req.url = classifyFirstMatchV7 origin0 req.url ∧
    classifyV9 origin0 req.url = classifyFirstMatchV9 origin0 req.url ∧
    classifyV6 origin0 req = classifyFirstMatchV6 origin0 req ∧
    fetchListenerV8 origin0 req st net =
      (match classifyV8 origin0 req.url with
       | Strategy.passThrough => none
       | Strategy.cacheFirst => some (cacheFirstV8 origin0 req st net)
       | Strategy.staleWhileRevalidate => some (swrV8 req st net)
       | Strategy.networkFirst => some (networkFirstV8 req st net)) ∧
    fetchListenerV7 origin0 req st net =
      (match classifyV7 origin0 req.url with
       | Strategy.passThrough => none
       | Strategy.cacheFirst => some (cacheFirstV7 origin0 req st net)
       | Strategy.staleWhileRevalidate => some (swrV7 req st net)
       | Strategy.networkFirst => some (networkFirstV7 origin0 req st net)) ∧
    fetchListenerV9 origin0 req st net =
      (match classifyV9 origin0 req.url with
       | Strategy.passThrough => none
       | Strategy.cacheFirst => some (cacheFirstV9 origin0 req st net)
       | Strategy.staleWhileRevalidate => some (swrV9 req st net)
       | Strategy.networkFirst => some (networkFirstV9 origin0 req st net)) ∧
    fetchListenerV6 origin0 req st net =
      (match classifyV6 origin0 req with
       | Strategy.networkFirst => some (networkFirstV6 origin0 req st net)
       | _ => none) := by
  refine ⟨rfl, ?_, ?_, rfl, ?_, ?_, ?_, ?_⟩
  · cases hb1 : strStartsWith req.url.protocol "http" with
    | false => simp [classifyV7, classifyFirstMatchV7, firstMatch, routingRulesV7, hb1]
    | true =>
      cases hbe : strIncludes req.url.protocol "extension" with
      | true =>
        simp [classifyV7, classifyFirstMatchV7, firstMatch, routingRulesV7, hb1, hbe]
      | false =>
        simp [classifyV7, classifyFirstMatchV7, firstMatch, routingRulesV7, hb1, hbe]
  · cases hb1 : strStartsWith req.url.protocol "http" with
    | false => simp [classifyV9, classifyFirstMatchV9, firstMatch, routingRulesV9, hb1]
    | true =>
      cases hbe : strIncludes req.url.protocol "extension" with
      | true =>
        simp [classifyV9, classifyFirstMatchV9, firstMatch, routingRulesV9, hb1, hbe]
      | false =>
        simp [classifyV9, classifyFirstMatchV9, firstMatch, routingRulesV9, hb1, hbe]
  · cases hb1 : strStartsWith req.url.protocol "http" with
    | false => simp [fetchListenerV8, classifyV8, hb1]
    | true =>
      cases hb2 : req.url.origin == origin0 with
      | true => simp [fetchListenerV8, handleFetchV8, classifyV8, hb1, hb2]
      | false =>
        cases hb3 : isCdnHostV8 req.url.hostname with
        | true => simp [fetchListenerV8, handleFetchV8, classifyV8, hb1, hb2, hb3]
        | false => simp [fetchListenerV8, handleFetchV8, classifyV8, hb1, hb2, hb3]
  · cases hb1 : strStartsWith req.url.protocol "http" with
    | false => simp [fetchListenerV7, classifyV7, hb1]
    | true =>
      cases hbe : strIncludes req.url.protocol "extension" with
      | true => simp [fetchListenerV7, classifyV7, hb1, hbe]
      | false =>
        cases hb2 : req.url.origin == origin0 with
        | true => simp [fetchListenerV7, handleFetchV7, classifyV7, hb1, hbe, hb2]
        | false =>
          cases hb3 : isCdnHostV7 req.url.hostname with
          | true =>
            simp [fetchListenerV7, handleFetchV7, classifyV7, hb1, hbe, hb2, hb3]
          | false =>
            simp [fetchListenerV7, handleFetchV7, classifyV7, hb1, hbe, hb2, hb3]
  · cases hb1 : strStartsWith req.url.protocol "http" with
    | false => simp [fetchListenerV9, classifyV9, hb1]
    | true =>
      cases hbe : strIncludes req.url.protocol "extension" with
      | true => simp [fetchListenerV9, classifyV9, hb1, hbe]
      | false =>
        cases hb2 : req.url.origin == origin0 with
        | true => simp [fetchListenerV9, handleFetchV9, classifyV9, hb1, hbe, hb2]
        | false =>
          cases hb3 : isCdnHostV9 req.url.hostname with
          | true =>
            simp [fetchListenerV9, handleFetchV9, classifyV9, hb1, hbe, hb2, hb3]
          | false =>
            simp [fetchListenerV9, handleFetchV9, classifyV9, hb1, hbe, hb2, hb3]
  · cases hm : req.method == "GET" with
    | false => simp [fetchListenerV6, classifyV6, hm]
    | true =>
      cases hco : !(req.url.origin == origin0) &&
          !(strIncludes req.url.hostname "cdn") &&
          !(strIncludes req.url.hostname "fonts") with
      | true => simp [fetchListenerV6, classifyV6, hm, hco]
      | false => simp [fetchListenerV6, classifyV6, hm, hco]

/-- Claim C5 (counterexample): a request routed Network-First whose
network fetch succeeds is returned without any copy being stored: the
resulting cache state is unchanged (here still completely empty), so in
particular no copy reaches the runtime store. -/
theorem C5_network_first_no_store_counterexample :
    handleFetchV9 appOriginW apiReq [] (fun _ => some okResp) = (some okResp, []) ∧
    storeContents [] RUNTIME_CACHE_V9 = [] :=
  ⟨by decide, rfl⟩

/-- Claim C5 (amended): the v9 Network-First strategy returns a
successful network response unchanged without storing any copy; on
network failure it falls back to the cache lookup across all stores,
and returns the offline placeholder only when no cached copy exists. -/
theorem C5_network_first_amended (origin0 : String) (req : Request)
    (st : CacheState) (net : Net)
    (h1 : (req.url.origin == origin0) = false)
    (h2 : isCdnHostV9 req.url.hostname = false) :
    (∀ r, net req.key = some r → handleFetchV9 origin0 req st net = (some r, st)) ∧
    (∀ c, net req.key = none → cachesMatch st req.key = some c →
      handleFetchV9 origin0 req st net = (some c, st)) ∧
    (net req.key = none → cachesMatch st req.key = none →
      handleFetchV9 origin0 req st net =
        (createOfflineResponseV9 origin0 req st, st)) := by
  refine ⟨?_, ?_, ?_⟩
  · intro r hr
    simp [handleFetchV9, h1, h2, networkFirstV9, hr]
  · intro c hn hc
    simp [handleFetchV9, h1, h2, networkFirstV9, hn, hc]
  · intro hn hc
    simp [handleFetchV9, h1, h2, networkFirstV9, hn, hc]

/-- Witness for the amended C5 on concrete inputs: network success with
empty caches, network failure with a cached copy, and network failure
with empty caches. -/
theorem C5_network_first_amended_witness :
    handleFetchV9 appOriginW apiReq [] (fun _ => some okResp) = (some okResp, []) ∧
    handleFetchV9 appOriginW apiReq stApi netDown = (some manifestResp, stApi) ∧
    handleFetchV9 appOriginW apiReq [] netDown =
      (createOfflineResponseV9 appOriginW apiReq [], []) :=
  ⟨(C5_network_first_amended appOriginW apiReq [] (fun _ => some okResp)
      (by decide) (by decide)).1 okResp rfl,
   (C5_network_first_amended appOriginW apiReq stApi netDown
      (by decide) (by decide)).2.1 manifestResp rfl (by decide),
   (C5_network_first_amended appOriginW apiReq [] netDown
      (by decide) (by decide)).2.2 rfl rfl⟩

/-- Claim C7 (counterexample): the v7 message listener (part_001 lines
201-209) handles only SKIP_WAITING and GET_VERSION, so a CLEAR_CACHE
message deletes nothing there: the cache state is unchanged, and a
subsequent request for the previously cached manifest is still served
from the cache (the cached entry, not the network's response), refuting
the claim over its cited v7 source. -/
theorem C7_clear_cache_ignored_by_v7 :
    handleMessageV7 "CLEAR_CACHE" stManifestV7 = stManifestV7 ∧
    (handleFetchV7 appOriginW manifestReq (handleMessageV7 "CLEAR_CACHE" stManifestV7)
        (fun _ => some okResp)).1 = some manifestResp ∧
    manifestResp ≠ okResp :=
  ⟨rfl, by decide, by decide⟩

/-- Claim C7 (amended): in the v9 variant — the only one whose message
listener implements CLEAR_CACHE — the message deletes every cache
store: the resulting cache state is empty, every subsequent lookup
misses, and a subsequent request for any previously cached asset is
answered from the network. -/
theorem C7_clear_cache_empties_all (st : CacheState) :
    handleMessageV9 "CLEAR_CACHE" st = [] ∧
    (∀ key, cachesMatch (handleMessageV9 "CLEAR_CACHE" st) key = none) ∧
    (∀ (origin0 : String) (req : Request) (net : Net) (r : Response),
      net req.key = some r →
      (handleFetchV9 origin0 req (handleMessageV9 "CLEAR_CACHE" st) net).1 =
        some r) := by
  have hempty : handleMessageV9 "CLEAR_CACHE" st = [] := by
    unfold handleMessageV9
    simp only [beq_self_eq_true, if_true]
    exact deleteCachesList_total _ _ (fun p hp => List.mem_map.mpr ⟨p, hp, rfl⟩)
  refine ⟨hempty, ?_, ?_⟩
  · intro key
    rw [hempty]
    rfl
  · intro origin0 req net r hr
    rw [hempty]
    cases hb1 : req.url.origin == origin0 with
    | true => simp [handleFetchV9, hb1, cacheFirstV9, cachesMatch, hr]
    | false =>
      cases hb2 : isCdnHostV9 req.url.hostname with
      | true => simp [handleFetchV9, hb1, hb2, swrV9, cachesMatch, hr]
      | false => simp [handleFetchV9, hb1, hb2, networkFirstV9, cachesMatch, hr]

/-- Witness for C7: after CLEAR_CACHE, a request whose response was
previously cached is served from the network. -/
theorem C7_clear_cache_empties_all_witness :
    (handleFetchV9 appOriginW apiReq (handleMessageV9 "CLEAR_CACHE" stApi)
        (fun _ => some okResp)).1 = some okResp :=
  (C7_clear_cache_empties_all stApi).2.2 appOriginW apiReq
    (fun _ => some okResp) okResp rfl

/-- Claim C9 (counterexample): for a request with destination image
whose URL pathname ends in `.html`, `createOfflineResponse` takes the
document branch first and returns the cached HTML shell — content type
`text/html`, not `image/svg+xml` — instead of the SVG placeholder. -/
theorem C9_image_placeholder_counterexample :
    createOfflineResponseV9 appOriginW imgHtmlReq stIdx = some htmlRespW ∧
    getHeader htmlRespW "Content-Type" = some "text/html" :=
  ⟨by decide, by decide⟩

set_option maxRecDepth 40000 in
/-- Claim C9 (amended): for every request with destination image whose
pathname does not end in `.html`, the offline placeholder of v9 and of
v7 is a response whose declared content type is `image/svg+xml` and
whose body is well-formed markup. -/
theorem C9_image_placeholder_amended (origin0 : String) (req : Request)
    (st : CacheState) (h1 : req.destination = Dest.image)
    (h2 : strEndsWith req.url.pathname ".html" = false) :
    createOfflineResponseV9 origin0 req st = some svgResponseV9 ∧
    getHeader svgResponseV9 "Content-Type" = some "image/svg+xml" ∧
    xmlWellFormed svgResponseV9.body = true ∧
    createOfflineResponseV7 origin0 req st =
      some ⟨200, "", [("Content-Type", "image/svg+xml")], svgBodyV7⟩ ∧
    xmlWellFormed svgBodyV7 = true := by
  have hd1 : (Dest.image == Dest.document) = false := by decide
  have hd2 : (Dest.image == Dest.image) = true := by decide
  refine ⟨?_, by decide, by decide, ?_, by decide⟩
  · simp [createOfflineResponseV9, h1, h2, hd1, hd2]
  · simp [createOfflineResponseV7, h1, h2, hd1, hd2]

/-- Witness for the amended C9 at a concrete image request. -/
theorem C9_image_placeholder_amended_witness :
    createOfflineResponseV9 appOriginW imgReqW [] = some svgResponseV9 ∧
    getHeader svgResponseV9 "Content-Type" = some "image/svg+xml" ∧
    xmlWellFormed svgResponseV9.body = true ∧
    createOfflineResponseV7 appOriginW imgReqW [] =
      some ⟨200, "", [("Content-Type", "image/svg+xml")], svgBodyV7⟩ ∧
    xmlWellFormed svgBodyV7 = true :=
  C9_image_placeholder_amended appOriginW imgReqW [] rfl (by decide)

end AppPdf
